import Mathlib

/-!
Verification of the calculation example program
(`src/Examples/Example/main/main.c`, 47 lines of C).

The program is configured entirely at build time by preprocessor macros.
We embed a build configuration as four booleans, one per `CONFIG_*`
option listed in the spec (ADDITION, SUBTRACTION, DEBUG, CALCULATION).

Modelling notes (the build system and `utility.h` are not under `src/`,
so the following aspects are modelled from the spec):
* `main` tests the macros both with `#ifdef`/`#if defined(...)` and as
  C expression values (`if (CONFIG_ADDITION)`).  The spec (section 6)
  describes each option as a single boolean build flag, so both kinds of
  test are modelled by the same boolean.
* The source spells the subtraction macro `CONFIG_SUBTRACTION` inside
  `calc` (line 14) but `CONFIG_SUBSTRACTION` inside `main` (line 36).
  The spec lists a single `SUBTRACTION` option, so both spellings are
  modelled as the same flag `subtraction`.
* `add`, `sub` and the `MODE` macro come from `utility.h`, which is not
  in `src/`; they are modelled from the spec (marked below).
* Output is modelled as the list of strings passed to `printf`, in
  order (`printf` has no failure modes here); the flat output text is
  their concatenation.  When neither arithmetic flag is set, the body of
  `calc` mentions the undeclared identifiers `result` and `op`
  (line 24), so no run is defined for a configuration whose gate
  executes `calc` in mode None: such an outcome is `none`.
-/

/-- The operation mode of the spec's data model (section 3):
exactly one of Addition, Subtraction, None is active per build. -/
inductive Mode where
  | Addition
  | Subtraction
  | None
deriving DecidableEq, Repr

/-- A build configuration: which `CONFIG_*` macros are defined
(equivalently, per the spec's section 6, which build options are on). -/
structure Config where
  addition : Bool
  subtraction : Bool
  debug : Bool
  calculation : Bool
deriving DecidableEq, Repr

/-- The mode a configuration selects.  Both `calc`
(`#if defined(CONFIG_ADDITION) ... #elif defined(CONFIG_SUBTRACTION)`)
and `main` (`if (CONFIG_ADDITION) ... else if (CONFIG_SUBSTRACTION)`)
give addition priority over subtraction. -/
def modeOf (cfg : Config) : Mode :=
  if cfg.addition then Mode.Addition
  else if cfg.subtraction then Mode.Subtraction
  else Mode.None

/-- Modelled from the spec: `add` is declared in `utility.h`, which is
not under `src/`; section 4.1 fixes `result = operand1 + operand2`. -/
def add (operand1 operand2 : Int) : Int := operand1 + operand2

/-- Modelled from the spec: `sub` is declared in `utility.h`, which is
not under `src/`; section 4.1 fixes `result = operand1 - operand2`. -/
def sub (operand1 operand2 : Int) : Int := operand1 - operand2

/-- Modelled from the spec: the `MODE` macro printed by `main` under
`CONFIG_DEBUG` (line 29) is defined outside `src/`.  Section 6 item 1
and testable property 4 describe it as an extra mode-name line
preceding the banner sequence, so it expands to the mode name followed
by a newline ("Substraction" follows the source's spelling). -/
def modeMacro : Mode → String
  | Mode.Addition => "Addition\n"
  | Mode.Subtraction => "Substraction\n"
  | Mode.None => "None\n"

/-- The `(result, symbol)` pair computed by the branches of `calc`
(lines 5-22): `result = add(operand1, operand2)` and `op = '+'` when
`CONFIG_ADDITION` is defined, `result = sub(operand1, operand2)` and
`op = '-'` when `CONFIG_SUBTRACTION` is defined; with neither macro,
no `result`/`op` exist (`none`).  This is the spec's
`calculate(operand1, operand2, mode) -> (result, symbol)` contract
surface. -/
def calculate (operand1 operand2 : Int) : Mode → Option (Int × Char)
  | Mode.Addition => some (add operand1 operand2, '+')
  | Mode.Subtraction => some (sub operand1 operand2, '-')
  | Mode.None => none

/-- The exact text of `printf("%i %c %i = %i\n", operand1, op, operand2,
result)` at line 24. -/
def resultLine (operand1 : Int) (op : Char) (operand2 result : Int) : String :=
  s!"{operand1} {op} {operand2} = {result}\n"

/-- The `printf` outputs of one call of `calc` (lines 4-25), in order:
under `CONFIG_ADDITION`, optionally `printf("Addition")` (line 8, debug
only, no newline) and then the result line with `+`; under
`CONFIG_SUBTRACTION`, optionally `printf("Substraction")` (line 17) and
then the result line with `-`.  With neither macro defined the body
refers to the undeclared `result` and `op` (line 24): `none`. -/
def calcEvents (cfg : Config) (operand1 operand2 : Int) : Option (List String) :=
  if cfg.addition then
    some ((if cfg.debug then ["Addition"] else []) ++
      [resultLine operand1 '+' operand2 (add operand1 operand2)])
  else if cfg.subtraction then
    some ((if cfg.debug then ["Substraction"] else []) ++
      [resultLine operand1 '-' operand2 (sub operand1 operand2)])
  else none

/-- Whether the call `calc(73, 37)` at line 43 is executed: it is
guarded only by `#ifdef CONFIG_CALCULATION` (lines 42-44), not by the
mode. -/
def calcInvoked (cfg : Config) : Bool := cfg.calculation

/-- The mode-selected banner printed by `main` (lines 34-40). -/
def banner (cfg : Config) : String :=
  if cfg.addition then "Adding 37 to 73\n"
  else if cfg.subtraction then "Substracting 37 from 73\n"
  else "No operation specified; nothing to calculate\n"

/-- The `printf` outputs of lines 28-40 of `main`, in order: optionally
`printf(MODE)` (line 29, debug only), then `"Calculation Example\n"`
(line 32), then the mode-selected banner (lines 34-40). -/
def headerEvents (cfg : Config) : List String :=
  (if cfg.debug then [modeMacro (modeOf cfg)] else []) ++
    ["Calculation Example\n", banner cfg]

/-- The `printf` outputs of one run of `main` (lines 27-47), in order:
the header outputs of lines 28-40, then, only under
`CONFIG_CALCULATION`, the outputs of `calc(73, 37)` (line 43). -/
def programEvents (cfg : Config) : Option (List String) :=
  if cfg.calculation then
    (calcEvents cfg 73 37).map (fun es => headerEvents cfg ++ es)
  else
    some (headerEvents cfg)

/-- The flat text a run writes to standard output. -/
def programOutput (cfg : Config) : Option String :=
  (programEvents cfg).map String.join

/-- A full run of `main`: its output together with its return value,
which is the constant `0` of line 46. -/
def programRun (cfg : Config) : Option (String × Int) :=
  (programOutput cfg).map (fun out => (out, 0))

/-- `main(int argc, char **argv)` (line 27): the parameters are never
read in the body, so the run ignores them. -/
def mainRun (cfg : Config) (_argc : Int) (_argv : List String) :
    Option (String × Int) :=
  programRun cfg

/-- The mode-selected line of the spec's output list (section 6, item 3). -/
def modeLine : Mode → String
  | Mode.Addition => "Adding 37 to 73\n"
  | Mode.Subtraction => "Substracting 37 from 73\n"
  | Mode.None => "No operation specified; nothing to calculate\n"

/-- The operation-name diagnostic `calc` prints for each mode under
debug (no trailing newline); none exists in mode None. -/
def opName : Mode → List String
  | Mode.Addition => ["Addition"]
  | Mode.Subtraction => ["Substraction"]
  | Mode.None => []

/-- The arithmetic result line for each mode at operands (73, 37); none
exists in mode None. -/
def gateLine : Mode → List String
  | Mode.Addition => ["73 + 37 = 110\n"]
  | Mode.Subtraction => ["73 - 37 = 36\n"]
  | Mode.None => []

/-- The output sequence of spec section 6 as amended: optional debug
mode banner, the title, one mode-selected line, and, only when the
calculation gate is on, the debug operation name (no newline)
immediately followed by the result line. -/
def specOrderedEvents (cfg : Config) : List String :=
  (if cfg.debug then [modeMacro (modeOf cfg)] else []) ++
  ["Calculation Example\n", modeLine (modeOf cfg)] ++
  (if cfg.calculation then
    (if cfg.debug then opName (modeOf cfg) else []) ++ gateLine (modeOf cfg)
  else [])

/-- Evaluation of the result line of an addition build at the program's
operands: `printf("%i %c %i = %i\n", 73, '+', 37, add(73, 37))` prints
`"73 + 37 = 110\n"`. -/
theorem resultLine_add_eval :
    resultLine 73 '+' 37 (add 73 37) = "73 + 37 = 110\n" := by decide

/-- Evaluation of the result line of a subtraction build at the
program's operands: `printf("%i %c %i = %i\n", 73, '-', 37,
sub(73, 37))` prints `"73 - 37 = 36\n"`. -/
theorem resultLine_sub_eval :
    resultLine 73 '-' 37 (sub 73 37) = "73 - 37 = 36\n" := by decide

/-- The outputs of `calc(73, 37)` with the result lines evaluated. -/
theorem calcEvents_73_37 (cfg : Config) :
    calcEvents cfg 73 37 =
      if cfg.addition then
        some ((if cfg.debug then ["Addition"] else []) ++ ["73 + 37 = 110\n"])
      else if cfg.subtraction then
        some ((if cfg.debug then ["Substraction"] else []) ++ ["73 - 37 = 36\n"])
      else none := by
  unfold calcEvents
  rw [resultLine_add_eval, resultLine_sub_eval]

/-- The event list of the Debug + Addition + Calculation build. -/
theorem programEvents_debug_add :
    programEvents ⟨true, false, true, true⟩ =
      some ["Addition\n", "Calculation Example\n", "Adding 37 to 73\n",
        "Addition", "73 + 37 = 110\n"] := by
  simp only [programEvents, calcEvents_73_37]; rfl

/-- The event list of the Debug + Subtraction + Calculation build. -/
theorem programEvents_debug_sub :
    programEvents ⟨false, true, true, true⟩ =
      some ["Substraction\n", "Calculation Example\n",
        "Substracting 37 from 73\n", "Substraction", "73 - 37 = 36\n"] := by
  simp only [programEvents, calcEvents_73_37]; rfl

/-- Flattening the debug addition events into the output text. -/
theorem join_add_debug :
    String.join ["Addition\n", "Calculation Example\n", "Adding 37 to 73\n",
        "Addition", "73 + 37 = 110\n"] =
      "Addition\nCalculation Example\nAdding 37 to 73\nAddition73 + 37 = 110\n" := by
  decide

/-- Flattening the debug subtraction events into the output text. -/
theorem join_sub_debug :
    String.join ["Substraction\n", "Calculation Example\n",
        "Substracting 37 from 73\n", "Substraction", "73 - 37 = 36\n"] =
      "Substraction\nCalculation Example\nSubstracting 37 from 73\nSubstraction73 - 37 = 36\n" := by
  decide

/-- Flattening the plain addition header into the output text. -/
theorem join_add_plain :
    String.join ["Calculation Example\n", "Adding 37 to 73\n"] =
      "Calculation Example\nAdding 37 to 73\n" := by decide

/-- Flattening the plain subtraction header into the output text. -/
theorem join_sub_plain :
    String.join ["Calculation Example\n", "Substracting 37 from 73\n"] =
      "Calculation Example\nSubstracting 37 from 73\n" := by decide

/-- C1: for every pair of integers (a, b), in Addition mode the
calculator computes result = a + b and symbol `'+'`. -/
theorem C1_calculate_addition (a b : Int) :
    calculate a b Mode.Addition = some (a + b, '+') := rfl

/-- C2: for every pair of integers (a, b), in Subtraction mode the
calculator computes result = a - b and symbol `'-'`. -/
theorem C2_calculate_subtraction (a b : Int) :
    calculate a b Mode.Subtraction = some (a - b, '-') := rfl

/-- C3 counterexample: in a Subtraction build whose calculation gate is
off, the banner is printed but the line `"73 - 37 = 36"` never is, so
the claim as stated (which does not condition on the gate) fails. -/
theorem C3_counterexample :
    programEvents ⟨false, true, false, false⟩ =
      some ["Calculation Example\n", "Substracting 37 from 73\n"] ∧
    programOutput ⟨false, true, false, false⟩ =
      some "Calculation Example\nSubstracting 37 from 73\n" ∧
    "73 - 37 = 36\n" ∉ ["Calculation Example\n", "Substracting 37 from 73\n"] := by
  refine ⟨rfl, ?_, by decide⟩
  simp only [programOutput]
  rw [show programEvents ⟨false, true, false, false⟩ =
        some ["Calculation Example\n", "Substracting 37 from 73\n"] from rfl,
    Option.map_some', join_sub_plain]

/-- C3 amended: a Subtraction build at operands (73, 37) prints the
banner "Substracting 37 from 73" and then, only if the calculation gate
is enabled, the line "73 - 37 = 36" (preceded, in debug builds, by the
newline-less "Substraction" diagnostic). -/
theorem C3_subtraction_run (d c : Bool) :
    programEvents ⟨false, true, d, c⟩ =
      some ((if d then ["Substraction\n"] else []) ++
        ["Calculation Example\n", "Substracting 37 from 73\n"] ++
        (if c then (if d then ["Substraction"] else []) ++ ["73 - 37 = 36\n"]
         else [])) := by
  cases d <;> cases c <;> (simp only [programEvents, calcEvents_73_37]; rfl)

/-- C4 counterexample: a configuration in mode None whose calculation
gate is on still invokes `calc(73, 37)` (the call at line 43 is guarded
only by `CONFIG_CALCULATION`), so the calculator is not left uninvoked
"regardless of the other configuration flags"; no run is defined there
because that body is ill-formed. -/
theorem C4_counterexample :
    modeOf ⟨false, false, false, true⟩ = Mode.None ∧
    calcInvoked ⟨false, false, false, true⟩ = true ∧
    programEvents ⟨false, false, false, true⟩ = none := ⟨rfl, rfl, rfl⟩

/-- C4 amended: in mode None with the calculation gate disabled, the
calculator is never invoked and the program emits the
"No operation specified; nothing to calculate" message (after the debug
banner, if any, and the title) and no arithmetic result line; the gate,
not the mode, decides whether `calc` is invoked. -/
theorem C4_none_mode (d : Bool) :
    calcInvoked ⟨false, false, d, false⟩ = false ∧
    programEvents ⟨false, false, d, false⟩ =
      some ((if d then ["None\n"] else []) ++
        ["Calculation Example\n",
         "No operation specified; nothing to calculate\n"]) := by
  cases d <;> exact ⟨rfl, rfl⟩

/-- C5: with Debug enabled and Addition mode, an extra "Addition"
mode-name line is printed before the standard banner sequence (the
"Calculation Example" line and the mode banner). -/
theorem C5_debug_addition_banner (s c : Bool) :
    ∃ rest, programEvents ⟨true, s, true, c⟩ =
      some ("Addition\n" :: "Calculation Example\n" ::
        "Adding 37 to 73\n" :: rest) := by
  cases s <;> cases c <;> exact ⟨_, rfl⟩

/-- C6 counterexample: in a Debug + Addition + Calculation build the
printed text is not exactly [debug banner, title, mode line, result
line]: the extra newline-less "Addition" diagnostic sits between the
mode line and the result line. -/
theorem C6_counterexample :
    programEvents ⟨true, false, true, true⟩ ≠
      some ["Addition\n", "Calculation Example\n", "Adding 37 to 73\n",
        "73 + 37 = 110\n"] ∧
    programEvents ⟨true, false, true, true⟩ =
      some ["Addition\n", "Calculation Example\n", "Adding 37 to 73\n",
        "Addition", "73 + 37 = 110\n"] := by
  refine ⟨?_, programEvents_debug_add⟩
  rw [programEvents_debug_add]
  intro h
  have h54 : (5 : Nat) = 4 := congrArg (fun o => (Option.getD o []).length) h
  exact absurd h54 (by decide)

/-- C6 amended: for every build configuration that defines a run (mode
None with the gate on has none), the output is exactly: the optional
debug mode banner, then "Calculation Example", then exactly one
mode-selected line, then — only if the calculation gate is enabled —
the debug operation-name text (no newline) immediately followed by the
line "<operand1> <symbol> <operand2> = <result>". -/
theorem C6_output_order (cfg : Config) :
    programEvents cfg =
      if !cfg.addition && !cfg.subtraction && cfg.calculation then none
      else some (specOrderedEvents cfg) := by
  obtain ⟨a, s, d, c⟩ := cfg
  cases a <;> cases s <;> cases d <;> cases c <;>
    (simp only [programEvents, calcEvents_73_37]; rfl)

/-- C7: an Addition build at operands (73, 37) prints the banner
"Adding 37 to 73" and then, if the calculation gate is enabled, the
line "73 + 37 = 110". -/
theorem C7_addition_run (s d c : Bool) :
    programEvents ⟨true, s, d, c⟩ =
      some ((if d then ["Addition\n"] else []) ++
        ["Calculation Example\n", "Adding 37 to 73\n"] ++
        (if c then (if d then ["Addition"] else []) ++ ["73 + 37 = 110\n"]
         else [])) := by
  cases s <;> cases d <;> cases c <;>
    (simp only [programEvents, calcEvents_73_37]; rfl)

/-- C8: every run of the program returns the exit code 0; no run
returns anything else. -/
theorem C8_exit_zero (cfg : Config) (out : String) (ec : Int)
    (h : programRun cfg = some (out, ec)) : ec = 0 := by
  unfold programRun at h
  cases hop : programOutput cfg <;> rw [hop] at h <;>
    simp only [Option.map_none', Option.map_some'] at h
  · exact Option.noConfusion h
  · exact (congrArg Prod.snd (Option.some.inj h)).symm

/-- C8 witness: the plain Addition build runs and exits with code 0. -/
theorem C8_exit_zero_witness :
    programRun ⟨true, false, false, false⟩ =
      some ("Calculation Example\nAdding 37 to 73\n", 0) ∧ (0 : Int) = 0 := by
  have hout : programOutput ⟨true, false, false, false⟩ =
      some "Calculation Example\nAdding 37 to 73\n" := by
    simp only [programOutput]
    rw [show programEvents ⟨true, false, false, false⟩ =
          some ["Calculation Example\n", "Adding 37 to 73\n"] from rfl,
      Option.map_some', join_add_plain]
  have h : programRun ⟨true, false, false, false⟩ =
      some ("Calculation Example\nAdding 37 to 73\n", 0) := by
    simp only [programRun]
    rw [hout, Option.map_some']
  exact ⟨h, C8_exit_zero ⟨true, false, false, false⟩
    "Calculation Example\nAdding 37 to 73\n" 0 h⟩

/-- C9: for a fixed build configuration, runs with different
command-line arguments produce the same output and exit code: `main`
never reads `argc` or `argv`. -/
theorem C9_args_independent (cfg : Config) (argc1 argc2 : Int)
    (argv1 argv2 : List String) :
    mainRun cfg argc1 argv1 = mainRun cfg argc2 argv2 := rfl

/-- C10: in debug builds the operation-name diagnostic ("Addition" or
"Substraction") is printed without a trailing newline, so it is glued
onto the same output line as the arithmetic result line that follows
it. -/
theorem C10_debug_no_newline :
    calcEvents ⟨true, false, true, true⟩ 73 37 =
      some ["Addition", "73 + 37 = 110\n"] ∧
    calcEvents ⟨false, true, true, true⟩ 73 37 =
      some ["Substraction", "73 - 37 = 36\n"] ∧
    programOutput ⟨true, false, true, true⟩ =
      some "Addition\nCalculation Example\nAdding 37 to 73\nAddition73 + 37 = 110\n" ∧
    programOutput ⟨false, true, true, true⟩ =
      some "Substraction\nCalculation Example\nSubstracting 37 from 73\nSubstraction73 - 37 = 36\n" := by
  refine ⟨?_, ?_, ?_, ?_⟩
  · rw [calcEvents_73_37]; rfl
  · rw [calcEvents_73_37]; rfl
  · simp only [programOutput]
    rw [programEvents_debug_add, Option.map_some', join_add_debug]
  · simp only [programOutput]
    rw [programEvents_debug_sub, Option.map_some', join_sub_debug]
